import Mathlib

/-!
Verification of the protocol-translation gateway in `app.mjs`
(claude-code-other-llms): a shallow embedding of the model-capability
resolver, the resilient invoker (retry loop + circuit breaker), the
request translator, the stream-translator state machine, and the
`POST /v1/messages` handler, together with theorems settling the frozen
claims about them.

Conventions of the embedding:
* JavaScript numbers used as token counts, timestamps and counters are
  modelled as `Nat`; JS truthiness of an optional number is `natTruthy`.
* Fallible JS code (thrown exceptions) is modelled with `Except String`,
  the error payload being the message of the thrown error.
* Real-time values (`Date.now()` used for message and tool-use ids) are
  not observable by any claim; ids are modelled as fixed placeholders,
  and the times at which retry attempts fail are an explicit oracle
  `timeAt : Nat -> Nat`.
* External collaborators are oracles: the upstream metadata lookup is a
  `Bool` (success/failure), the upstream chat completion is an
  `Except String UpstreamBehavior` value, `JSON.parse` success on an
  accumulated tool-argument buffer is a predicate `String -> Bool`, and
  the text-to-file heuristic (which the design notes direct to treat as
  a replaceable strategy of type text to path/content pairs) is a
  function `String -> List (String × String)`.
-/

namespace Gateway

instance {ε α : Type} [DecidableEq ε] [DecidableEq α] : DecidableEq (Except ε α) :=
  fun a b =>
    match a, b with
    | .ok x, .ok y =>
      if h : x = y then isTrue (by rw [h]) else isFalse (by intro he; cases he; exact h rfl)
    | .error x, .error y =>
      if h : x = y then isTrue (by rw [h]) else isFalse (by intro he; cases he; exact h rfl)
    | .ok _, .error _ => isFalse (by intro he; cases he)
    | .error _, .ok _ => isFalse (by intro he; cases he)

/-- Structural character-list prefix test. -/
def beginsWithChars : List Char → List Char → Bool
  | [], _ => true
  | _ :: _, [] => false
  | c :: cs, d :: ds => c == d && beginsWithChars cs ds

/-- The `String.prototype.startsWith` test as used by the source, implemented by
structural recursion on the character data so that concrete instances
evaluate. -/
def jsStartsWith (s pre : String) : Bool := beginsWithChars pre.data s.data

/-! ## Model Capability Resolver (`getModelConfig`, app.mjs lines 79-116) -/

/-- The allow-list of permitted model names (app.mjs line 79). -/
def allowedModels : List String :=
  ["o1", "o1-mini", "o3", "o3-mini", "gpt-4o-mini", "gpt-4o", "gpt-4"]

/-- The cached capability profile: the source caches objects of shape
`\x7b max_tokens \x7d` in `modelConfigCache`. -/
structure ModelConfig where
  max_tokens : Nat
deriving DecidableEq, Repr

/-- The process-wide `modelConfigCache` object, modelled as an association
list from model name to config (JS object keyed by model name). -/
abbrev ModelCache := List (String × ModelConfig)

/-- Reading `modelConfigCache[modelName]`.  The cached values are always
objects, hence always truthy, so the source truthiness test is exactly a
presence test. -/
def lookupCache (c : ModelCache) (k : String) : Option ModelConfig :=
  (c.find? (fun p => p.1 = k)).map (fun p => p.2)

/-- The per-family token-limit chain of `getModelConfig` (app.mjs lines
92-106), kept in the source branch order: the `o1-mini` branch is
unreachable because the `o1` prefix test precedes it, exactly as in the
source. -/
def familyMaxTokens (modelName : String) : Nat :=
  if jsStartsWith modelName "gpt-4o-mini" then 16384
  else if jsStartsWith modelName "gpt-4o" then 16384
  else if jsStartsWith modelName "o1" then 32000
  else if jsStartsWith modelName "o1-mini" then 64000
  else if jsStartsWith modelName "o3-mini" then 100000
  else if jsStartsWith modelName "gpt-4" then 4096
  else 16384

/-- Result of one `getModelConfig` call: the returned config, the cache
after the call, and how many upstream metadata lookups
(`chatClient.models.retrieve`) the call issued. -/
structure ResolveResult where
  config : ModelConfig
  cache : ModelCache
  lookups : Nat
deriving DecidableEq, Repr

/-- Embeds `getModelConfig` (app.mjs lines 87-116).  `lookupOk` is the outcome of
the upstream metadata lookup; the retrieved metadata value itself is
unused by the source (only success or failure matters).  On failure the
source logs and caches the 16384 fallback instead of propagating. -/
def getModelConfig (cache : ModelCache) (modelName : String) (lookupOk : Bool) :
    ResolveResult :=
  match lookupCache cache modelName with
  | some cfg => { config := cfg, cache := cache, lookups := 0 }
  | none =>
    if lookupOk then
      let cfg : ModelConfig := { max_tokens := familyMaxTokens modelName }
      { config := cfg, cache := (modelName, cfg) :: cache, lookups := 1 }
    else
      let fallback : ModelConfig := { max_tokens := 16384 }
      { config := fallback, cache := (modelName, fallback) :: cache, lookups := 1 }

/-! ## Resilient Invoker (`circuitBreaker` and `getCompletionWithRetry`,
app.mjs lines 118-155) -/

/-- The process-wide circuit breaker state (app.mjs lines 119-124).  The
source field named `open` is a Lean keyword, hence the guillemets. -/
structure CircuitBreaker where
  failureCount : Nat
  threshold : Nat
  «open» : Bool
  openUntil : Nat
deriving DecidableEq, Repr

/-- Errors surfaced by the invoker: the circuit-open error thrown before
any attempt, or the upstream error rethrown from an attempt (identified
by the numeric payload supplied by the attempt oracle). -/
inductive ApiError where
  | circuitOpen
  | upstream (e : Nat)
deriving DecidableEq, Repr

/-- Outcome of one invocation of the invoker: the returned value or
thrown error, the breaker state afterwards, and how many upstream
attempts (`chatClient.chat.completions.create` calls) were made. -/
structure InvokeResult where
  result : Except ApiError Unit
  breaker : CircuitBreaker
  attempts : Nat
deriving Repr

/-- The retry loop of `getCompletionWithRetry` (app.mjs lines 136-154).
`upstream n` is the outcome of the n-th attempt and `timeAt n` the value
of `Date.now()` when that attempt fails.  The backoff sleep and its
doubling delay only consume real time and feed the log line; they do not
affect any observable state and are not modelled.  The fuel argument
starts at `maxAttempts`; the fuel-zero fallback is unreachable because
the loop always returns or throws by `attempt = maxAttempts`. -/
def retryLoop (upstream : Nat → Except Nat Unit) (timeAt : Nat → Nat)
    (maxAttempts : Nat) : Nat → Nat → CircuitBreaker → InvokeResult
  | 0, attempt, cb =>
    { result := .error (.upstream 0), breaker := cb, attempts := attempt }
  | fuel + 1, attempt, cb =>
    match upstream attempt with
    | .ok _ =>
      { result := .ok (), breaker := { cb with failureCount := 0 }, attempts := attempt }
    | .error e =>
      let cb := { cb with failureCount := cb.failureCount + 1 }
      if cb.threshold ≤ cb.failureCount then
        { result := .error (.upstream e),
          breaker := { cb with «open» := true, openUntil := timeAt attempt + 30000 },
          attempts := attempt }
      else if attempt = maxAttempts then
        { result := .error (.upstream e), breaker := cb, attempts := attempt }
      else
        retryLoop upstream timeAt maxAttempts fuel (attempt + 1) cb

/-- Embeds `getCompletionWithRetry` (app.mjs lines 126-155): breaker check
first, reset after an elapsed cool-down, then up to 10 attempts. -/
def getCompletionWithRetry (upstream : Nat → Except Nat Unit) (timeAt : Nat → Nat)
    (now : Nat) (cb : CircuitBreaker) : InvokeResult :=
  if cb.«open» = true ∧ now < cb.openUntil then
    { result := .error .circuitOpen, breaker := cb, attempts := 0 }
  else if cb.«open» = true then
    retryLoop upstream timeAt 10 10 1 { cb with «open» := false, failureCount := 0 }
  else
    retryLoop upstream timeAt 10 10 1 cb

/-! ## Stream Translator (delta loop of the `/v1/messages` handler,
app.mjs lines 284-438) -/

/-- One upstream chunk delta (`chunk.choices[0].delta`).  The handler
examines `delta.tool_calls` first and `delta.content` otherwise, so the
two payloads are modelled as mutually exclusive; `empty` is a chunk
carrying neither (for example the final role/finish chunk), which the
loop ignores. -/
inductive UpstreamDelta where
  | text (s : String)
  | toolCall (name : String) (args : String)
  | empty
deriving DecidableEq, Repr

/-- A member of `currentContentBlocks`: a JS object whose fields are
present or absent.  A text block is created as type "text", text "";
a tool-use block as type "tool_use" with id, name and input.  `input`
is `none` for the initial empty-object input and `some s` once a
successful `JSON.parse` of the accumulated buffer `s` replaced it.
The id field of a tool-use block is the real-time value
`toolu_` + `Date.now()` in the source, modelled by the fixed
placeholder "toolu". -/
structure Block where
  type : String
  text : Option String := none
  id : Option String := none
  name : Option String := none
  input : Option String := none
deriving DecidableEq, Repr

/-- Kind carried by a `content_block_start` event. -/
inductive BlockInfo where
  | text
  | toolUse (name : String)
deriving DecidableEq, Repr

/-- Payload of a `content_block_delta` event. -/
inductive DeltaInfo where
  | textDelta (s : String)
  | inputJsonDelta (s : String)
deriving DecidableEq, Repr

/-- The SSE events written by the handler, in the order written.  Event
payload fields that are constants or real-time values in the source
(message id, usage numbers, stop_sequence) are not modelled; the
`message_start` event is identified by the chosen model it carries and
`message_delta` by its stop_reason and the `currentContentBlocks` list
it carries as `content`. -/
inductive SSEEvent where
  | messageStart (model : String)
  | contentBlockStart (index : Nat) (block : BlockInfo)
  | contentBlockDelta (index : Nat) (delta : DeltaInfo)
  | contentBlockStop (index : Nat)
  | filesCreated (files : List String)
  | messageDelta (stopReason : String) (content : List Block)
  | messageStop
deriving DecidableEq, Repr

/-- The per-request mutable stream state of the handler (app.mjs lines
278-289). -/
structure StreamState where
  contentBlockIndex : Nat
  blocks : List Block
  hasStartedTextBlock : Bool
  isToolUse : Bool
  toolUseJson : String
  fullOutput : String
deriving DecidableEq, Repr

def initialStreamState : StreamState :=
  { contentBlockIndex := 0, blocks := [], hasStartedTextBlock := false,
    isToolUse := false, toolUseJson := "", fullOutput := "" }

/-- Replace the block at a position, leaving the list unchanged when the
index is out of range.  The source guards the text-append write with
`if (currentContentBlocks[contentBlockIndex])`; the unguarded tool-input
write only ever runs just after a block was pushed at or before that
index, so in both uses the out-of-range case matches the source. -/
def updateAt : List Block → Nat → (Block → Block) → List Block
  | [], _, _ => []
  | b :: bs, 0, f => f b :: bs
  | b :: bs, n + 1, f => b :: updateAt bs n f

/-- One iteration of the delta loop (app.mjs lines 306-395).  `parseOk`
models success of `JSON.parse` on the accumulated argument buffer, and
`fileMode` is `output_mode === "file"`.  Notable source behaviours kept
here: a tool-call delta arriving while a text block is open starts the
tool-use block at the same `contentBlockIndex` without closing the text
block; a text delta arriving while a tool-use block is open only closes
that block (its text is appended to `fullOutput` in file mode but is
neither appended to a block nor emitted); appending text to a block that
lacks a `text` field concatenates onto the JS string "undefined". -/
def stepDelta (parseOk : String → Bool) (fileMode : Bool) (st : StreamState) :
    UpstreamDelta → StreamState × List SSEEvent
  | .toolCall nm args =>
    let st1 :=
      if st.isToolUse then st
      else
        { st with isToolUse := true, toolUseJson := "",
                  blocks := st.blocks ++
                    [{ type := "tool_use", id := some "toolu", name := some nm }] }
    let startEvs : List SSEEvent :=
      if st.isToolUse then []
      else [.contentBlockStart st.contentBlockIndex (.toolUse nm)]
    if args = "" then (st1, startEvs)
    else
      let acc := st1.toolUseJson ++ args
      let st2 :=
        { st1 with toolUseJson := acc,
                   blocks :=
                     if parseOk acc then
                       updateAt st1.blocks st.contentBlockIndex
                         (fun b => { b with input := some acc })
                     else st1.blocks }
      (st2, startEvs ++ [.contentBlockDelta st.contentBlockIndex (.inputJsonDelta args)])
  | .text s =>
    if s = "" then (st, [])
    else
      let st0 := if fileMode then { st with fullOutput := st.fullOutput ++ s } else st
      if st.isToolUse then
        ({ st0 with contentBlockIndex := st.contentBlockIndex + 1,
                    isToolUse := false, hasStartedTextBlock := false },
         [.contentBlockStop st.contentBlockIndex])
      else
        let st1 :=
          if st.hasStartedTextBlock then st0
          else { st0 with hasStartedTextBlock := true,
                          blocks := st0.blocks ++ [{ type := "text", text := some "" }] }
        let startEvs : List SSEEvent :=
          if st.hasStartedTextBlock then []
          else [.contentBlockStart st.contentBlockIndex .text]
        let st2 :=
          { st1 with blocks :=
              (updateAt st1.blocks st.contentBlockIndex
                (fun b => { b with text := some (b.text.getD "undefined" ++ s) })) }
        if fileMode then (st2, startEvs)
        else (st2, startEvs ++ [.contentBlockDelta st.contentBlockIndex (.textDelta s)])
  | .empty => (st, [])

/-- The `for await` loop over the upstream chunks. -/
def runLoop (parseOk : String → Bool) (fileMode : Bool) :
    StreamState → List UpstreamDelta → StreamState × List SSEEvent
  | st, [] => (st, [])
  | st, d :: ds =>
    let r1 := stepDelta parseOk fileMode st d
    let r2 := runLoop parseOk fileMode r1.1 ds
    (r2.1, r1.2 ++ r2.2)

/-- The complete event sequence the handler writes for a successfully
consumed upstream stream (app.mjs lines 291-437): `message_start`, the
loop events, the single trailing `content_block_stop` at the current
index, the `files_created` event in file mode (listing the paths from
the text-to-file strategy `extractFiles`), then `message_delta` with
stop_reason "tool_use" if the stream ended inside a tool-use block and
"end_turn" otherwise, and `message_stop`. -/
def streamEvents (parseOk : String → Bool) (fileMode : Bool)
    (extractFiles : String → List (String × String)) (model : String)
    (deltas : List UpstreamDelta) : List SSEEvent :=
  let r := runLoop parseOk fileMode initialStreamState deltas
  SSEEvent.messageStart model ::
    r.2 ++
    [SSEEvent.contentBlockStop r.1.contentBlockIndex] ++
    (if fileMode then
      [SSEEvent.filesCreated ((extractFiles r.1.fullOutput).map Prod.fst)]
    else []) ++
    [SSEEvent.messageDelta (if r.1.isToolUse then "tool_use" else "end_turn") r.1.blocks,
     SSEEvent.messageStop]

/-! ### Event classifiers and loop invariants -/

def isStart : SSEEvent → Bool
  | .contentBlockStart _ _ => true
  | _ => false

def isStop : SSEEvent → Bool
  | .contentBlockStop _ => true
  | _ => false

def isMessageStartEv : SSEEvent → Bool
  | .messageStart _ => true
  | _ => false

def isMessageDeltaEv : SSEEvent → Bool
  | .messageDelta _ _ => true
  | _ => false

def isMessageStopEv : SSEEvent → Bool
  | .messageStop => true
  | _ => false

def isTextDeltaEv : SSEEvent → Bool
  | .contentBlockDelta _ (.textDelta _) => true
  | _ => false

/-- Events the delta loop may write: block start, delta and stop. -/
def isBlockEv : SSEEvent → Bool
  | .contentBlockStart _ _ => true
  | .contentBlockDelta _ _ => true
  | .contentBlockStop _ => true
  | _ => false

def isToolStartInfo : BlockInfo → Bool
  | .toolUse _ => true
  | .text => false

/-- Acceptor for the tool-block lifecycle: tracks whether a tool-use
block is open and rejects (`none`) as soon as any `content_block_start`
is emitted while one is open. -/
def toolAut : Bool → List SSEEvent → Option Bool
  | b, [] => some b
  | b, .contentBlockStart _ k :: rest => if b then none else toolAut (isToolStartInfo k) rest
  | _, .contentBlockStop _ :: rest => toolAut false rest
  | b, _ :: rest => toolAut b rest

/-- The text payload of a delta (empty for tool-call and empty chunks). -/
def textOf : UpstreamDelta → String
  | .text s => s
  | _ => ""

/-- Concatenation of the text payloads of a delta stream. -/
def textConcat : List UpstreamDelta → String
  | [] => ""
  | d :: ds => textOf d ++ textConcat ds

/-- The tool-argument fragment of the C2 scenario (a small JSON object,
braces escaped). -/
def jsonArg : String := "\x7b\"x\":1\x7d"

/-! ## Request Translator (app.mjs lines 181-273) -/

/-- JS truthiness of an optional number: absent and 0 are falsy. -/
def natTruthy : Option Nat → Bool
  | some n => n != 0
  | none => false

/-- JS `a || b` on optional numbers. -/
def jsOr (a b : Option Nat) : Option Nat := if natTruthy a then a else b

/-- A typed content part of an incoming message.  The structured payload
of a `tool_result`/`tool_use` part is modelled by the string that
`JSON.stringify` produces for it (`content`); `none` means the field is
absent. -/
structure ContentPart where
  type : Option String := none
  text : Option String := none
  content : Option String := none
deriving DecidableEq, Repr

/-- Message content: a scalar string or an ordered list of typed parts. -/
inductive MessageContent where
  | scalar (s : String)
  | parts (ps : List ContentPart)
deriving DecidableEq, Repr

structure InMessage where
  role : String
  content : MessageContent
deriving DecidableEq, Repr

structure SystemBlock where
  text : String
deriving DecidableEq, Repr

/-- A caller-supplied tool definition; `description := none` models a
tool object with no description field. -/
structure ToolDefinition where
  name : String
  description : Option String := none
  input_schema : Option String := none
deriving DecidableEq, Repr

/-- The upstream function-call schema built from a tool definition. -/
structure MappedTool where
  type : String
  name : String
  description : String
  parameters : Option String
deriving DecidableEq, Repr

/-- The body of a `POST /v1/messages` request (destructured at app.mjs
lines 183-193).  The unused `metadata` field is omitted.  `output_mode`
is kept as the raw optional string compared against "file". -/
structure ChatRequest where
  model : Option String := none
  max_tokens : Option Nat := none
  max_completion_tokens : Option Nat := none
  messages : List InMessage := []
  system : List SystemBlock := []
  temperature : Option Rat := none
  tools : Option (List ToolDefinition) := none
  output_mode : Option String := none
deriving DecidableEq, Repr

/-- A message of the upstream request. -/
structure OutMessage where
  role : String
  content : MessageContent
deriving DecidableEq, Repr

/-- The upstream request object `data` (app.mjs lines 234-273). -/
structure UpstreamData where
  model : String
  messages : List OutMessage
  stream : Bool
  temperature : Option Rat := none
  max_tokens : Option Nat := none
  max_completion_tokens : Option Nat := none
  tools : Option (List MappedTool) := none
deriving DecidableEq, Repr

/-- The fixed operational instruction always appended as the final
system message (app.mjs line 179). -/
def defaultSystemInstruction : String :=
  "You are running in Claude Code CLI, so if you are requested to create files, folders or run commands, execute it instead of outputing."

/-- Model selection (app.mjs lines 197-201): `model || defaultModel`,
then fall back to the default when the choice is not in the allow-list
(the JS `model` is falsy when absent or the empty string). -/
def chooseModel (defaultModel : String) (reqModel : Option String) : String :=
  let c := match reqModel with
           | some m => if m = "" then defaultModel else m
           | none => defaultModel
  if allowedModels.contains c then c else defaultModel

/-- Flattening of one typed content part (app.mjs lines 215-224):
`tool_result` and `tool_use` parts are retyped to text; for text-typed
parts the text becomes the stringified structured payload if present,
else the existing text, else the empty string, and the `content` field
is deleted; other part types only get the (identity) retype. -/
def flattenPart (it : ContentPart) : ContentPart :=
  let ty := if it.type = some "tool_result" ∨ it.type = some "tool_use" then some "text"
            else it.type
  if ty = some "text" then
    { type := ty,
      text := some (match it.content with
                    | some c => c
                    | none => it.text.getD ""),
      content := none }
  else
    { it with type := ty }

/-- Message flattening (app.mjs lines 211-232). -/
def flattenMessage (m : InMessage) : OutMessage :=
  match m.content with
  | .parts ps => { role := m.role, content := .parts (ps.map flattenPart) }
  | .scalar s => { role := m.role, content := .scalar s }

/-- Message of the thrown TypeError when a tool definition has no
description: the source reads `item.description.length` with no guard. -/
def lengthTypeError : String :=
  "TypeError: Cannot read properties of undefined (reading length)"

/-- Mapping of one tool definition (app.mjs lines 262-272): accessing
`.length` of a missing description throws; a description longer than
1024 characters is truncated to 1024 with no ellipsis marker. -/
def mapTool (t : ToolDefinition) : Except String MappedTool :=
  match t.description with
  | none => .error lengthTypeError
  | some d =>
    .ok { type := "function", name := t.name,
          description := if 1024 < d.length then d.take 1024 else d,
          parameters := t.input_schema }

/-- Sequential mapping with throw-on-first-error, as JS `Array.map`
behaves when the callback throws. -/
def mapToolList : List ToolDefinition → Except String (List MappedTool)
  | [] => .ok []
  | t :: ts =>
    match mapTool t with
    | .error e => .error e
    | .ok m =>
      match mapToolList ts with
      | .error e => .error e
      | .ok ms => .ok (m :: ms)

/-- The `if (tools)` guard (app.mjs line 261): absent tools leave
`data.tools` unset. -/
def mapTools : Option (List ToolDefinition) → Except String (Option (List MappedTool))
  | none => .ok none
  | some ts =>
    match mapToolList ts with
    | .error e => .error e
    | .ok ms => .ok (some ms)

/-- Construction of the upstream `data` object apart from tools (app.mjs
lines 197-259): chosen model, system messages plus flattened messages,
stream=true, and the parameter negotiation branch.  `isNewModel` is
allow-list membership of the chosen model, exactly as in the source. -/
def buildData (defaultModel : String) (cfg : ModelConfig) (req : ChatRequest)
    (tls : Option (List MappedTool)) : UpstreamData :=
  let chosen := chooseModel defaultModel req.model
  let isNewModel := allowedModels.contains chosen
  let base : UpstreamData :=
    { model := chosen,
      messages :=
        (req.system.map (fun b => { role := "system", content := .scalar b.text })
          ++ [{ role := "system", content := .scalar defaultSystemInstruction }])
          ++ req.messages.map flattenMessage,
      stream := true,
      tools := tls }
  if isNewModel then
    let tokens := jsOr req.max_completion_tokens req.max_tokens
    let tokens := if natTruthy tokens && decide (cfg.max_tokens < tokens.getD 0) then
                    some cfg.max_tokens
                  else tokens
    { base with temperature := some 1,
                max_completion_tokens := if natTruthy tokens then tokens else none }
  else
    { base with temperature := req.temperature,
                max_tokens := if natTruthy req.max_tokens then req.max_tokens else none }

/-- The request-translation stage: tool mapping is the only fallible
step; everything else is total. -/
def translateRequest (defaultModel : String) (cfg : ModelConfig) (req : ChatRequest) :
    Except String UpstreamData :=
  match mapTools req.tools with
  | .error e => .error e
  | .ok tls => .ok (buildData defaultModel cfg req tls)

/-! ## Gateway Endpoint (the `POST /v1/messages` handler, app.mjs lines
181-448) -/

/-- Behaviour of a successfully created upstream completion stream: the
chunks it yields, and — when `streamError` is set — the error the
`for await` loop throws after those chunks. -/
structure UpstreamBehavior where
  deltas : List UpstreamDelta
  streamError : Option String := none

/-- Per-request oracles and configuration for one handler run: the
configured default model, the state of the model-config cache, the
outcome of the metadata lookup, the outcome of the upstream
`chat.completions.create` call, the JSON-parse oracle and the
text-to-file strategy. -/
structure HandlerEnv where
  defaultModel : String
  cache : ModelCache
  lookupOk : Bool
  createResult : Except String UpstreamBehavior
  parseOk : String → Bool
  extractFiles : String → List (String × String)

/-- Observable outcome of one handler run: HTTP status of the response
head, SSE events written in order, the JSON error body if one was
delivered, whether the response was ended cleanly, the circuit-breaker
state afterwards, the number of upstream chat-completion calls made,
and the model-config cache afterwards. -/
structure HandlerResult where
  status : Nat
  writes : List SSEEvent
  errorBody : Option String
  ended : Bool
  breaker : CircuitBreaker
  upstreamAttempts : Nat
  cache : ModelCache

/-- The catch block (app.mjs lines 441-447) always runs
`res.status(400).json(...)`, but HTTP cannot deliver a JSON body once
the SSE headers and bytes have been written: the body reaches the
client only when nothing was written yet. -/
def catchResponse (written : List SSEEvent) (msg : String) : Option String :=
  if written.isEmpty then some msg else none

/-- The whole `/v1/messages` handler.  Note that the upstream call is
`chatClient.chat.completions.create(data)` invoked DIRECTLY (app.mjs
line 275): `getCompletionWithRetry` is defined but never called, so the
breaker state `cb` is neither consulted nor modified and exactly one
upstream attempt is made whenever translation succeeds.  A translation
error (the only fallible step is tool mapping) or a create error is
caught before any SSE byte is written; an error thrown by the stream
mid-loop is caught after the head and loop events went out. -/
def handleMessages (env : HandlerEnv) (cb : CircuitBreaker) (req : ChatRequest) :
    HandlerResult :=
  let chosen := chooseModel env.defaultModel req.model
  let rc := getModelConfig env.cache chosen env.lookupOk
  match translateRequest env.defaultModel rc.config req with
  | .error msg =>
    { status := 400, writes := [], errorBody := catchResponse [] msg, ended := true,
      breaker := cb, upstreamAttempts := 0, cache := rc.cache }
  | .ok _data =>
    match env.createResult with
    | .error msg =>
      { status := 400, writes := [], errorBody := catchResponse [] msg, ended := true,
        breaker := cb, upstreamAttempts := 1, cache := rc.cache }
    | .ok beh =>
      let fm := req.output_mode == some "file"
      match beh.streamError with
      | some msg =>
        { status := 200,
          writes := SSEEvent.messageStart chosen ::
            (runLoop env.parseOk fm initialStreamState beh.deltas).2,
          errorBody := catchResponse
            (SSEEvent.messageStart chosen ::
              (runLoop env.parseOk fm initialStreamState beh.deltas).2) msg,
          ended := false, breaker := cb, upstreamAttempts := 1, cache := rc.cache }
      | none =>
        { status := 200,
          writes := streamEvents env.parseOk fm env.extractFiles chosen beh.deltas,
          errorBody := none, ended := true, breaker := cb, upstreamAttempts := 1,
          cache := rc.cache }

/-- A tool definition whose description field is absent. -/
def noDescTool (nm : String) (sch : Option String) : ToolDefinition :=
  { name := nm, description := none, input_schema := sch }

/-! ## Theorems -/

theorem lookupCache_cons_self (c : ModelCache) (k : String) (v : ModelConfig) :
    lookupCache ((k, v) :: c) k = some v := by
  simp [lookupCache, List.find?]

/-- C9: resolving the same model name twice returns a bit-identical
`CapabilityProfile` both times, issues the upstream metadata lookup at
most once across both calls whether the first lookup succeeded or
failed, and the result stays cached (the cache is only ever extended,
never evicted, so the entry persists for the process lifetime). -/
theorem c9_resolver_idempotent (cache : ModelCache) (name : String) (ok1 ok2 : Bool) :
    (getModelConfig (getModelConfig cache name ok1).cache name ok2).config
      = (getModelConfig cache name ok1).config
    ∧ (getModelConfig cache name ok1).lookups
        + (getModelConfig (getModelConfig cache name ok1).cache name ok2).lookups ≤ 1
    ∧ lookupCache (getModelConfig (getModelConfig cache name ok1).cache name ok2).cache name
        = some (getModelConfig cache name ok1).config := by
  cases h : lookupCache cache name with
  | some cfg => simp [getModelConfig, h]
  | none => cases ok1 <;> simp [getModelConfig, h, lookupCache_cons_self]

theorem retryLoop_attempts_pos (upstream : Nat → Except Nat Unit) (timeAt : Nat → Nat)
    (maxAttempts : Nat) :
    ∀ fuel attempt cb, 1 ≤ attempt →
      1 ≤ (retryLoop upstream timeAt maxAttempts fuel attempt cb).attempts := by
  intro fuel
  induction fuel with
  | zero => intro attempt cb h; simpa [retryLoop] using h
  | succ n ih =>
    intro attempt cb h
    unfold retryLoop
    cases upstream attempt with
    | ok _ => simpa using h
    | error e =>
      by_cases h1 : ({ cb with failureCount := cb.failureCount + 1 } : CircuitBreaker).threshold
          ≤ cb.failureCount + 1
      · simpa [h1] using h
      · by_cases h2 : attempt = maxAttempts
        · simpa [h1, h2] using h
        · simpa [h1, h2] using ih (attempt + 1) _ (Nat.le_succ_of_le h)

/-- C5: circuit-breaker behaviour of the resilient invoker.
(a) Starting from a closed breaker with no recorded failures, three
consecutive upstream failures trip the breaker: the invocation fails
immediately with the third (triggering) error after exactly 3 attempts —
no further retries although 10 are allowed — and the breaker is left
open with `openUntil` = the failure time + 30000 ms.
(b) An invocation starting while the breaker is open and the current
time is before `openUntil` fails immediately with the circuit-open error,
makes zero upstream attempts and leaves the breaker unchanged.
(c) An invocation starting at or after `openUntil` resets the breaker
(open := false, failureCount := 0), runs the normal retry loop on the
reset state and makes at least one upstream attempt. -/
theorem c5_circuit_breaker :
    (∀ (es : Nat → Nat) (timeAt : Nat → Nat) (now u : Nat),
      getCompletionWithRetry (fun n => .error (es n)) timeAt now
          { failureCount := 0, threshold := 3, «open» := false, openUntil := u }
        = { result := .error (.upstream (es 3)),
            breaker := { failureCount := 3, threshold := 3, «open» := true,
                         openUntil := timeAt 3 + 30000 },
            attempts := 3 })
    ∧ (∀ (upstream : Nat → Except Nat Unit) (timeAt : Nat → Nat) (now k fc th : Nat),
      getCompletionWithRetry upstream timeAt now
          { failureCount := fc, threshold := th, «open» := true, openUntil := now + k + 1 }
        = { result := .error .circuitOpen,
            breaker := { failureCount := fc, threshold := th, «open» := true,
                         openUntil := now + k + 1 },
            attempts := 0 })
    ∧ (∀ (upstream : Nat → Except Nat Unit) (timeAt : Nat → Nat) (u k fc th : Nat),
      getCompletionWithRetry upstream timeAt (u + k)
          { failureCount := fc, threshold := th, «open» := true, openUntil := u }
        = retryLoop upstream timeAt 10 10 1
            { failureCount := 0, threshold := th, «open» := false, openUntil := u }
      ∧ 1 ≤ (retryLoop upstream timeAt 10 10 1
            { failureCount := 0, threshold := th, «open» := false, openUntil := u }).attempts) := by
  refine ⟨?_, ?_, ?_⟩
  · intro es timeAt now u
    rfl
  · intro upstream timeAt now k fc th
    unfold getCompletionWithRetry
    rw [if_pos ⟨rfl, show now < now + k + 1 by omega⟩]
  · intro upstream timeAt u k fc th
    refine ⟨?_, retryLoop_attempts_pos upstream timeAt 10 10 1 _ le_rfl⟩
    unfold getCompletionWithRetry
    rw [if_neg (fun h => absurd (show u + k < u from h.2) (by omega)), if_pos rfl]

theorem toolAut_append (l1 l2 : List SSEEvent) (b : Bool) :
    toolAut b (l1 ++ l2) = (toolAut b l1).bind (fun b2 => toolAut b2 l2) := by
  induction l1 generalizing b with
  | nil => simp [toolAut]
  | cons e t ih =>
    cases e with
    | contentBlockStart i k =>
      cases b with
      | false => simpa [toolAut] using ih (isToolStartInfo k)
      | true => simp [toolAut]
    | contentBlockStop i => simpa [toolAut] using ih false
    | messageStart m => simpa [toolAut] using ih b
    | contentBlockDelta i d => simpa [toolAut] using ih b
    | filesCreated f => simpa [toolAut] using ih b
    | messageDelta r c => simpa [toolAut] using ih b
    | messageStop => simpa [toolAut] using ih b

theorem stepDelta_blockEvents (pj : String → Bool) (fm : Bool) (st : StreamState)
    (d : UpstreamDelta) : ∀ e ∈ (stepDelta pj fm st d).2, isBlockEv e = true := by
  cases d with
  | toolCall nm args =>
    by_cases h1 : st.isToolUse <;> by_cases h2 : args = "" <;>
      simp_all [stepDelta, isBlockEv]
  | text s =>
    by_cases h0 : s = "" <;> by_cases h1 : st.isToolUse <;>
      by_cases h2 : st.hasStartedTextBlock <;> by_cases h3 : fm <;>
      simp_all [stepDelta, isBlockEv]
  | empty => simp [stepDelta]

theorem stepDelta_index (pj : String → Bool) (fm : Bool) (st : StreamState)
    (d : UpstreamDelta) :
    (stepDelta pj fm st d).1.contentBlockIndex
      = st.contentBlockIndex + (stepDelta pj fm st d).2.countP isStop := by
  cases d with
  | toolCall nm args =>
    by_cases h1 : st.isToolUse <;> by_cases h2 : args = "" <;>
      simp_all [stepDelta, isStop]
  | text s =>
    by_cases h0 : s = "" <;> by_cases h1 : st.isToolUse <;>
      by_cases h2 : st.hasStartedTextBlock <;> by_cases h3 : fm <;>
      simp_all [stepDelta, isStop]
  | empty => simp [stepDelta]

theorem stepDelta_toolAut (pj : String → Bool) (fm : Bool) (st : StreamState)
    (d : UpstreamDelta) :
    toolAut st.isToolUse (stepDelta pj fm st d).2 = some (stepDelta pj fm st d).1.isToolUse := by
  cases d with
  | toolCall nm args =>
    by_cases h1 : st.isToolUse <;> by_cases h2 : args = "" <;>
      simp_all [stepDelta, toolAut, isToolStartInfo]
  | text s =>
    by_cases h0 : s = "" <;> by_cases h1 : st.isToolUse <;>
      by_cases h2 : st.hasStartedTextBlock <;> by_cases h3 : fm <;>
      simp_all [stepDelta, toolAut, isToolStartInfo]
  | empty => simp [stepDelta, toolAut]

theorem stepDelta_file_no_textDelta (pj : String → Bool) (st : StreamState)
    (d : UpstreamDelta) :
    (stepDelta pj true st d).2.countP isTextDeltaEv = 0 := by
  cases d with
  | toolCall nm args =>
    by_cases h1 : st.isToolUse <;> by_cases h2 : args = "" <;>
      simp_all [stepDelta, isTextDeltaEv]
  | text s =>
    by_cases h0 : s = "" <;> by_cases h1 : st.isToolUse <;>
      by_cases h2 : st.hasStartedTextBlock <;>
      simp_all [stepDelta, isTextDeltaEv]
  | empty => simp [stepDelta]

theorem stepDelta_fullOutput_file (pj : String → Bool) (st : StreamState)
    (d : UpstreamDelta) :
    (stepDelta pj true st d).1.fullOutput = st.fullOutput ++ textOf d := by
  cases d with
  | toolCall nm args =>
    by_cases h1 : st.isToolUse <;> by_cases h2 : args = "" <;>
      simp_all [stepDelta, textOf, String.append_empty]
  | text s =>
    by_cases h0 : s = "" <;> by_cases h1 : st.isToolUse <;>
      by_cases h2 : st.hasStartedTextBlock <;>
      simp_all [stepDelta, textOf, String.append_empty]
  | empty => simp [stepDelta, textOf, String.append_empty]

theorem runLoop_blockEvents (pj : String → Bool) (fm : Bool) :
    ∀ (ds : List UpstreamDelta) (st : StreamState),
      ∀ e ∈ (runLoop pj fm st ds).2, isBlockEv e = true := by
  intro ds
  induction ds with
  | nil => intro st e he; simp [runLoop] at he
  | cons d t ih =>
    intro st e he
    simp only [runLoop, List.mem_append] at he
    rcases he with he | he
    · exact stepDelta_blockEvents pj fm st d e he
    · exact ih _ e he

theorem runLoop_index (pj : String → Bool) (fm : Bool) :
    ∀ (ds : List UpstreamDelta) (st : StreamState),
      (runLoop pj fm st ds).1.contentBlockIndex
        = st.contentBlockIndex + (runLoop pj fm st ds).2.countP isStop := by
  intro ds
  induction ds with
  | nil => intro st; simp [runLoop]
  | cons d t ih =>
    intro st
    simp only [runLoop, List.countP_append]
    rw [ih, stepDelta_index pj fm st d]
    omega

theorem runLoop_toolAut (pj : String → Bool) (fm : Bool) :
    ∀ (ds : List UpstreamDelta) (st : StreamState),
      toolAut st.isToolUse (runLoop pj fm st ds).2 = some (runLoop pj fm st ds).1.isToolUse := by
  intro ds
  induction ds with
  | nil => intro st; simp [runLoop, toolAut]
  | cons d t ih =>
    intro st
    simp only [runLoop, toolAut_append, stepDelta_toolAut, Option.bind_some]
    exact ih _

theorem runLoop_file_no_textDelta (pj : String → Bool) :
    ∀ (ds : List UpstreamDelta) (st : StreamState),
      (runLoop pj true st ds).2.countP isTextDeltaEv = 0 := by
  intro ds
  induction ds with
  | nil => intro st; simp [runLoop]
  | cons d t ih =>
    intro st
    simp only [runLoop, List.countP_append]
    rw [ih, stepDelta_file_no_textDelta]

theorem runLoop_fullOutput_file (pj : String → Bool) :
    ∀ (ds : List UpstreamDelta) (st : StreamState),
      (runLoop pj true st ds).1.fullOutput = st.fullOutput ++ textConcat ds := by
  intro ds
  induction ds with
  | nil => intro st; simp [runLoop, textConcat, String.append_empty]
  | cons d t ih =>
    intro st
    simp only [runLoop, textConcat]
    rw [ih, stepDelta_fullOutput_file, String.append_assoc]

/-- Count of a message-level event among loop output is zero. -/
theorem runLoop_countP_zero (pj : String → Bool) (fm : Bool) (ds : List UpstreamDelta)
    (st : StreamState) (p : SSEEvent → Bool)
    (hp : ∀ e, isBlockEv e = true → p e = false) :
    (runLoop pj fm st ds).2.countP p = 0 := by
  refine List.countP_eq_zero.2 (fun e he hpe => ?_)
  have := hp e (runLoop_blockEvents pj fm ds st e he)
  simp [this] at hpe

/-- C2 counterexample: for the delta stream
text "Hello", tool_call run with the complete argument fragment,
text " world", the handler does NOT emit the event sequence the claim
states.  The fourth event (position 3) is the tool-use
`content_block_start` at index 0 — the claim requires `content_block_stop`
at index 0 there (the text block is never closed before the tool block
opens, and the tool block opens at index 0, not 1) — and no
`content_block_delta` carrying the text " world" is emitted at all: the
text of a delta arriving while a tool-use block is open is dropped, not
appended and emitted. -/
theorem c2_counterexample :
    ((streamEvents (fun s => s == jsonArg) false (fun _ => []) "o3-mini"
        [.text "Hello", .toolCall "run" jsonArg, .text " world"]).get? 3
      = some (.contentBlockStart 0 (.toolUse "run")))
    ∧ ((streamEvents (fun s => s == jsonArg) false (fun _ => []) "o3-mini"
        [.text "Hello", .toolCall "run" jsonArg, .text " world"]).get? 3
      ≠ some (.contentBlockStop 0))
    ∧ (SSEEvent.contentBlockDelta 2 (.textDelta " world"))
        ∉ (streamEvents (fun s => s == jsonArg) false (fun _ => []) "o3-mini"
            [.text "Hello", .toolCall "run" jsonArg, .text " world"])
    ∧ (SSEEvent.contentBlockStart 1 (.toolUse "run"))
        ∉ (streamEvents (fun s => s == jsonArg) false (fun _ => []) "o3-mini"
            [.text "Hello", .toolCall "run" jsonArg, .text " world"]) := by
  decide

/-- C2 amended: the actual event sequence for the scenario.  The events
are: message_start; text content_block_start (index 0); text delta
"Hello"; tool-use content_block_start at the SAME index 0 (the open text
block is not closed first); input_json delta at index 0 (whose parsed
value is stored into the block at position 0, the text block); a
content_block_stop at index 0 triggered by the " world" text delta,
whose text is dropped; the trailing content_block_stop at index 1;
message_delta with stop_reason "end_turn"; message_stop. -/
theorem c2_amended :
    streamEvents (fun s => s == jsonArg) false (fun _ => []) "o3-mini"
        [.text "Hello", .toolCall "run" jsonArg, .text " world"]
      = [.messageStart "o3-mini",
         .contentBlockStart 0 .text,
         .contentBlockDelta 0 (.textDelta "Hello"),
         .contentBlockStart 0 (.toolUse "run"),
         .contentBlockDelta 0 (.inputJsonDelta jsonArg),
         .contentBlockStop 0,
         .contentBlockStop 1,
         .messageDelta "end_turn"
           [{ type := "text", text := some "Hello", input := some jsonArg },
            { type := "tool_use", id := some "toolu", name := some "run" }],
         .messageStop] := by
  decide

/-- C3 counterexample: for the stream text "a" then tool_call run, the
loop emits two `content_block_start` events (both at index 0) with no
`content_block_stop` between them: two blocks are open at once, and the
text block is not closed before the tool-use block opens. -/
theorem c3_counterexample :
    ((runLoop (fun _ => false) false initialStreamState
        [.text "a", .toolCall "run" "b"]).2
      = [.contentBlockStart 0 .text, .contentBlockDelta 0 (.textDelta "a"),
         .contentBlockStart 0 (.toolUse "run"), .contentBlockDelta 0 (.inputJsonDelta "b")])
    ∧ ((runLoop (fun _ => false) false initialStreamState
        [.text "a", .toolCall "run" "b"]).2.countP isStart = 2)
    ∧ ((runLoop (fun _ => false) false initialStreamState
        [.text "a", .toolCall "run" "b"]).2.countP isStop = 0) := by
  decide

/-- C3 amended: what the loop actually guarantees.  (1) For every delta
stream, `contentBlockIndex` equals the number of `content_block_stop`
events emitted so far — the index increments exactly when a stop is
emitted; and a tool-use block, once opened, is closed by a
`content_block_stop` before any subsequent `content_block_start` (the
lifecycle acceptor `toolAut` never rejects).  (2) However, when a
tool-call delta arrives while a text block is open (and no tool block
is), the tool-use `content_block_start` is emitted immediately at the
same `contentBlockIndex`, with no `content_block_stop` in that step: the
text block is not closed first, so two blocks are briefly open at the
same index. -/
theorem c3_amended :
    (∀ (pj : String → Bool) (fm : Bool) (ds : List UpstreamDelta),
      (runLoop pj fm initialStreamState ds).1.contentBlockIndex
        = (runLoop pj fm initialStreamState ds).2.countP isStop
      ∧ toolAut false (runLoop pj fm initialStreamState ds).2
        = some (runLoop pj fm initialStreamState ds).1.isToolUse)
    ∧ (∀ (pj : String → Bool) (fm : Bool) (idx : Nat) (bs : List Block)
        (json out nm args : String),
      ((stepDelta pj fm
          { contentBlockIndex := idx, blocks := bs, hasStartedTextBlock := true,
            isToolUse := false, toolUseJson := json, fullOutput := out }
          (.toolCall nm args)).2.head?
        = some (.contentBlockStart idx (.toolUse nm)))
      ∧ (stepDelta pj fm
          { contentBlockIndex := idx, blocks := bs, hasStartedTextBlock := true,
            isToolUse := false, toolUseJson := json, fullOutput := out }
          (.toolCall nm args)).2.countP isStop = 0) := by
  constructor
  · intro pj fm ds
    refine ⟨?_, ?_⟩
    · simpa [initialStreamState] using runLoop_index pj fm ds initialStreamState
    · simpa [initialStreamState] using runLoop_toolAut pj fm ds initialStreamState
  · intro pj fm idx bs json out nm args
    by_cases h : args = "" <;> simp [stepDelta, h, isStop]

/-- C4 counterexample: for the empty upstream stream the trailing
`content_block_stop` is emitted even though no block was ever opened, so
the emitted events contain one `content_block_stop` and zero
`content_block_start` — the claimed count equality fails. -/
theorem c4_counterexample :
    (streamEvents (fun _ => false) false (fun _ => []) "o3-mini" []
      = [.messageStart "o3-mini", .contentBlockStop 0,
         .messageDelta "end_turn" [], .messageStop])
    ∧ ((streamEvents (fun _ => false) false (fun _ => []) "o3-mini" []).countP isStop
        ≠ (streamEvents (fun _ => false) false (fun _ => []) "o3-mini" []).countP isStart) := by
  decide

/-- C4 amended: for every delta stream the emitted sequence starts with
exactly one `message_start`, ends with exactly one `message_delta`
followed by exactly one `message_stop`; but the count of
`content_block_stop` events equals the final `contentBlockIndex` plus
one (the unconditional trailing stop), which in general differs from the
count of `content_block_start` events — for the empty stream there is
one stop and no start. -/
theorem c4_amended (pj : String → Bool) (fm : Bool)
    (ef : String → List (String × String)) (model : String) (ds : List UpstreamDelta) :
    (streamEvents pj fm ef model ds).countP isMessageStartEv = 1
    ∧ (streamEvents pj fm ef model ds).head? = some (.messageStart model)
    ∧ (streamEvents pj fm ef model ds).countP isMessageDeltaEv = 1
    ∧ (streamEvents pj fm ef model ds).countP isMessageStopEv = 1
    ∧ (∃ pre r bs, streamEvents pj fm ef model ds
        = pre ++ [.messageDelta r bs, .messageStop])
    ∧ (streamEvents pj fm ef model ds).countP isStop
        = (runLoop pj fm initialStreamState ds).1.contentBlockIndex + 1 := by
  have hstart : (runLoop pj fm initialStreamState ds).2.countP isMessageStartEv = 0 :=
    runLoop_countP_zero pj fm ds initialStreamState _
      (by intro e; cases e <;> simp [isBlockEv, isMessageStartEv])
  have hdelta : (runLoop pj fm initialStreamState ds).2.countP isMessageDeltaEv = 0 :=
    runLoop_countP_zero pj fm ds initialStreamState _
      (by intro e; cases e <;> simp [isBlockEv, isMessageDeltaEv])
  have hstop : (runLoop pj fm initialStreamState ds).2.countP isMessageStopEv = 0 :=
    runLoop_countP_zero pj fm ds initialStreamState _
      (by intro e; cases e <;> simp [isBlockEv, isMessageStopEv])
  have hidx : (runLoop pj fm initialStreamState ds).1.contentBlockIndex
      = (runLoop pj fm initialStreamState ds).2.countP isStop := by
    simpa [initialStreamState] using runLoop_index pj fm ds initialStreamState
  refine ⟨?_, ?_, ?_, ?_, ?_, ?_⟩
  · cases fm <;>
      simp [streamEvents, List.countP_cons, List.countP_append, hstart,
        isMessageStartEv]
  · cases fm <;> simp [streamEvents]
  · cases fm <;>
      simp [streamEvents, List.countP_cons, List.countP_append, hdelta,
        isMessageDeltaEv]
  · cases fm <;>
      simp [streamEvents, List.countP_cons, List.countP_append, hstop,
        isMessageStopEv]
  · refine ⟨SSEEvent.messageStart model ::
        ((runLoop pj fm initialStreamState ds).2
          ++ [SSEEvent.contentBlockStop
                (runLoop pj fm initialStreamState ds).1.contentBlockIndex]
          ++ (if fm then
                [SSEEvent.filesCreated
                  ((ef (runLoop pj fm initialStreamState ds).1.fullOutput).map Prod.fst)]
              else [])),
      (if (runLoop pj fm initialStreamState ds).1.isToolUse then "tool_use" else "end_turn"),
      (runLoop pj fm initialStreamState ds).1.blocks, ?_⟩
    simp [streamEvents, List.append_assoc]
  · cases fm <;>
      simp [streamEvents, List.countP_cons, List.countP_append, isStop, hidx]

/-- C7 counterexample: in file mode the loop still writes incremental
bytes to the client.  For the single tool-call delta stream the loop
emits a `content_block_start` and a per-delta `content_block_delta`
(input_json) even though output_mode is "file": only text deltas are
suppressed, not every per-delta emission. -/
theorem c7_counterexample :
    (runLoop (fun s => s == jsonArg) true initialStreamState
        [.toolCall "run" jsonArg]).2
      = [.contentBlockStart 0 (.toolUse "run"),
         .contentBlockDelta 0 (.inputJsonDelta jsonArg)] := by
  decide

/-- C7 amended: in file mode the loop emits no text `content_block_delta`
(no incremental TEXT bytes), the full text of the stream (including text
arriving while a tool block is open) is accumulated into `fullOutput`,
and after the loop the `files_created` event listing the paths produced
by the text-to-file strategy is emitted between the trailing
`content_block_stop` and `message_delta`; but `message_start`, block
start/stop events and tool-call input_json deltas are still written to
the client during streaming. -/
theorem c7_amended (pj : String → Bool) (ef : String → List (String × String))
    (model : String) (ds : List UpstreamDelta) :
    ((runLoop pj true initialStreamState ds).2.countP isTextDeltaEv = 0)
    ∧ ((runLoop pj true initialStreamState ds).1.fullOutput = textConcat ds)
    ∧ (streamEvents pj true ef model ds
        = SSEEvent.messageStart model ::
            (runLoop pj true initialStreamState ds).2
            ++ [SSEEvent.contentBlockStop
                  (runLoop pj true initialStreamState ds).1.contentBlockIndex,
                SSEEvent.filesCreated
                  ((ef (runLoop pj true initialStreamState ds).1.fullOutput).map Prod.fst),
                SSEEvent.messageDelta
                  (if (runLoop pj true initialStreamState ds).1.isToolUse then "tool_use"
                   else "end_turn")
                  (runLoop pj true initialStreamState ds).1.blocks,
                SSEEvent.messageStop]) := by
  refine ⟨runLoop_file_no_textDelta pj ds initialStreamState, ?_, ?_⟩
  · simpa [initialStreamState, String.empty_append] using
      runLoop_fullOutput_file pj ds initialStreamState
  · simp [streamEvents, List.append_assoc]

/-! ### Claims C1, C6, C8, C10 -/

/-- C1 (code bug): the handler never routes the upstream streaming call
through the resilient invoker.  For every environment, breaker state and
request (tools absent so that translation succeeds), the handler makes
exactly one direct upstream attempt and returns the breaker untouched —
even when the breaker is open — whereas `getCompletionWithRetry` at an
open breaker within the cool-down would have made zero attempts and
failed with the circuit-open error. -/
theorem c1_direct_upstream_call :
    (∀ (env : HandlerEnv) (cb : CircuitBreaker) (req : ChatRequest),
      (handleMessages env cb { req with tools := none }).upstreamAttempts = 1
      ∧ (handleMessages env cb { req with tools := none }).breaker = cb)
    ∧ (∀ (upstream : Nat → Except Nat Unit) (timeAt : Nat → Nat) (now k fc th : Nat),
      (getCompletionWithRetry upstream timeAt now
          { failureCount := fc, threshold := th, «open» := true,
            openUntil := now + k + 1 }).attempts = 0
      ∧ (getCompletionWithRetry upstream timeAt now
          { failureCount := fc, threshold := th, «open» := true,
            openUntil := now + k + 1 }).result = .error .circuitOpen) := by
  constructor
  · intro env cb req
    obtain ⟨m, mt, mct, msgs, sys, temp, tls, om⟩ := req
    cases hc : env.createResult with
    | error msg => simp [handleMessages, translateRequest, mapTools, hc]
    | ok beh =>
      cases hs : beh.streamError with
      | some msg => simp [handleMessages, translateRequest, mapTools, hc, hs]
      | none => simp [handleMessages, translateRequest, mapTools, hc, hs]
  · intro upstream timeAt now k fc th
    unfold getCompletionWithRetry
    rw [if_pos ⟨rfl, show now < now + k + 1 by omega⟩]
    exact ⟨rfl, rfl⟩

/-- C6 counterexample: gpt-4 — a legacy-family model by the claim — is
in the allow-list, so the code takes the fixed-temperature branch for
it: a caller temperature of 1/2 is discarded in favour of 1, and a
requested max_tokens of 999999 is clamped to the 4096 capability limit
and moved to `max_completion_tokens`, contradicting the claimed
pass-through and no-clamping behaviour. -/
theorem c6_counterexample :
    ((getModelConfig [] "gpt-4" true).config = { max_tokens := 4096 })
    ∧ ((translateRequest "o3-mini" { max_tokens := 4096 }
          { model := some "gpt-4", temperature := some 2, max_tokens := some 999999,
            messages := [{ role := "user", content := .scalar "hi" }] }).map
        (fun o => (o.temperature, o.max_tokens, o.max_completion_tokens))
      = .ok (some 1, none, some 4096))
    ∧ ((translateRequest "o3-mini" { max_tokens := 4096 }
          { model := some "gpt-4", temperature := some 2, max_tokens := some 999999,
            messages := [{ role := "user", content := .scalar "hi" }] }).map
        (fun o => (o.temperature, o.max_tokens, o.max_completion_tokens))
      ≠ .ok (some 2, some 999999, none)) := by
  refine ⟨by decide, ?_, ?_⟩ <;> decide

/-- C6 amended: the branch is selected by allow-list membership of the
chosen model, not by model family — gpt-4 and gpt-4o are in the
allow-list and receive the fixed-temperature treatment.  The legacy
pass-through branch (caller temperature unchanged, max_tokens forwarded
only when truthy-present, no clamping, no max_completion_tokens) applies
exactly when the chosen model is NOT in the allow-list, which can only
happen when the configured default model is itself outside it. -/
theorem c6_amended (dm : String) (cfg : ModelConfig) (req : ChatRequest)
    (h : allowedModels.contains (chooseModel dm req.model) = false) :
    ∃ out, translateRequest dm cfg { req with tools := none } = .ok out
      ∧ out.temperature = req.temperature
      ∧ out.max_tokens = (if natTruthy req.max_tokens then req.max_tokens else none)
      ∧ out.max_completion_tokens = none := by
  obtain ⟨m, mt, mct, msgs, sys, temp, tls, om⟩ := req
  have h' : ¬ (chooseModel dm m ∈ allowedModels) := by simpa using h
  refine ⟨buildData dm cfg
      { model := m, max_tokens := mt, max_completion_tokens := mct, messages := msgs,
        system := sys, temperature := temp, tools := none, output_mode := om } none,
    rfl, ?_⟩
  simp [buildData, h']

theorem c6_amended_witness :
    (allowedModels.contains (chooseModel "custom-model" none) = false)
    ∧ (∃ out, translateRequest "custom-model" { max_tokens := 4096 }
          { model := none, max_tokens := some 5, temperature := some (7/10) } = .ok out
        ∧ out.temperature = some (7/10)
        ∧ out.max_tokens = (if natTruthy (some 5) then some 5 else none)
        ∧ out.max_completion_tokens = none) :=
  ⟨by decide,
   c6_amended "custom-model" { max_tokens := 4096 }
     { model := none, max_tokens := some 5, temperature := some (7/10) } (by decide)⟩

/-- C8: error-response dichotomy.  (1) A tool-mapping failure (here: the
first tool lacks a description) happens before any SSE byte: the
response is a 400 with a JSON error body and nothing was streamed.
(2) A failing upstream create call likewise yields a 400 JSON error
response with nothing streamed (the SSE headers are only set after the
create call succeeds).  (3) An error thrown by the upstream stream after
streaming began yields an abrupt termination: no JSON error body can be
delivered, the response is not ended cleanly, and no `message_stop`
event was written. -/
theorem c8_error_dichotomy :
    (∀ (env : HandlerEnv) (cb : CircuitBreaker) (req : ChatRequest)
        (nm : String) (sch : Option String) (ts : List ToolDefinition),
      (handleMessages env cb
          { req with tools := some (noDescTool nm sch :: ts) }).writes = []
      ∧ (handleMessages env cb
          { req with tools := some (noDescTool nm sch :: ts) }).status = 400
      ∧ (handleMessages env cb
          { req with tools := some (noDescTool nm sch :: ts) }).errorBody
          = some lengthTypeError)
    ∧ (∀ (env : HandlerEnv) (cb : CircuitBreaker) (req : ChatRequest) (msg : String),
      (handleMessages { env with createResult := .error msg } cb
          { req with tools := none }).writes = []
      ∧ (handleMessages { env with createResult := .error msg } cb
          { req with tools := none }).status = 400
      ∧ (handleMessages { env with createResult := .error msg } cb
          { req with tools := none }).errorBody = some msg)
    ∧ (∀ (env : HandlerEnv) (cb : CircuitBreaker) (req : ChatRequest)
        (ds : List UpstreamDelta) (msg : String),
      (handleMessages { env with createResult := .ok { deltas := ds, streamError := some msg } }
          cb { req with tools := none }).errorBody = none
      ∧ (handleMessages { env with createResult := .ok { deltas := ds, streamError := some msg } }
          cb { req with tools := none }).ended = false
      ∧ (handleMessages { env with createResult := .ok { deltas := ds, streamError := some msg } }
          cb { req with tools := none }).writes.head?
          = some (.messageStart (chooseModel env.defaultModel req.model))
      ∧ SSEEvent.messageStop ∉
          (handleMessages { env with createResult := .ok { deltas := ds, streamError := some msg } }
            cb { req with tools := none }).writes) := by
  refine ⟨?_, ?_, ?_⟩
  · intro env cb req nm sch ts
    obtain ⟨m, mt, mct, msgs, sys, temp, tls, om⟩ := req
    simp [handleMessages, translateRequest, mapTools, mapToolList, mapTool, noDescTool,
      catchResponse]
  · intro env cb req msg
    obtain ⟨m, mt, mct, msgs, sys, temp, tls, om⟩ := req
    obtain ⟨dm, cache, lok, cres, pj, ef⟩ := env
    simp [handleMessages, translateRequest, mapTools, catchResponse]
  · intro env cb req ds msg
    obtain ⟨m, mt, mct, msgs, sys, temp, tls, om⟩ := req
    obtain ⟨dm, cache, lok, cres, pj, ef⟩ := env
    refine ⟨?_, ?_, ?_, ?_⟩
    · simp [handleMessages, translateRequest, mapTools, catchResponse]
    · simp [handleMessages, translateRequest, mapTools]
    · simp [handleMessages, translateRequest, mapTools]
    · simp only [handleMessages, translateRequest, mapTools]
      intro hmem
      rcases List.mem_cons.mp hmem with heq | hmem2
      · exact absurd heq (by simp)
      · have := runLoop_blockEvents pj
          (({ model := m, max_tokens := mt, max_completion_tokens := mct, messages := msgs,
              system := sys, temperature := temp, tools := none,
              output_mode := om } : ChatRequest).output_mode == some "file")
          ds initialStreamState _ hmem2
        simp [isBlockEv] at this

/-- C10: a request whose tools array contains a tool definition without
a description makes the tool-mapping step throw the TypeError for
reading `.length` of undefined before any upstream call is made
(zero upstream attempts), and the request is answered with the 400 JSON
error response with nothing streamed. -/
theorem c10_missing_description_rejected (env : HandlerEnv) (cb : CircuitBreaker)
    (req : ChatRequest) (ts : List ToolDefinition)
    (h : ∃ t ∈ ts, t.description = none) :
    (handleMessages env cb { req with tools := some ts }).status = 400
    ∧ (handleMessages env cb { req with tools := some ts }).writes = []
    ∧ (handleMessages env cb { req with tools := some ts }).errorBody = some lengthTypeError
    ∧ (handleMessages env cb { req with tools := some ts }).upstreamAttempts = 0 := by
  obtain ⟨m, mt, mct, msgs, sys, temp, tls, om⟩ := req
  have herr : mapToolList ts = .error lengthTypeError := by
    induction ts with
    | nil => simp at h
    | cons t rest ih =>
      rcases h with ⟨u, hu, hdesc⟩
      rcases List.mem_cons.mp hu with rfl | hmem
      · simp [mapToolList, mapTool, hdesc]
      · cases hd : t.description with
        | none => simp [mapToolList, mapTool, hd]
        | some d => simp [mapToolList, mapTool, hd, ih ⟨u, hmem, hdesc⟩]
  simp [handleMessages, translateRequest, mapTools, herr, catchResponse]

theorem c10_witness :
    (∃ t ∈ [({ name := "t" } : ToolDefinition)], t.description = none)
    ∧ ((handleMessages
          { defaultModel := "o3-mini", cache := [], lookupOk := true,
            createResult := .error "boom", parseOk := fun _ => false,
            extractFiles := fun _ => [] }
          { failureCount := 0, threshold := 3, «open» := false, openUntil := 0 }
          { tools := some [{ name := "t" }] }).status = 400
      ∧ (handleMessages
          { defaultModel := "o3-mini", cache := [], lookupOk := true,
            createResult := .error "boom", parseOk := fun _ => false,
            extractFiles := fun _ => [] }
          { failureCount := 0, threshold := 3, «open» := false, openUntil := 0 }
          { tools := some [{ name := "t" }] }).writes = []
      ∧ (handleMessages
          { defaultModel := "o3-mini", cache := [], lookupOk := true,
            createResult := .error "boom", parseOk := fun _ => false,
            extractFiles := fun _ => [] }
          { failureCount := 0, threshold := 3, «open» := false, openUntil := 0 }
          { tools := some [{ name := "t" }] }).errorBody = some lengthTypeError
      ∧ (handleMessages
          { defaultModel := "o3-mini", cache := [], lookupOk := true,
            createResult := .error "boom", parseOk := fun _ => false,
            extractFiles := fun _ => [] }
          { failureCount := 0, threshold := 3, «open» := false, openUntil := 0 }
          { tools := some [{ name := "t" }] }).upstreamAttempts = 0) :=
  ⟨by decide,
   c10_missing_description_rejected
     { defaultModel := "o3-mini", cache := [], lookupOk := true,
       createResult := .error "boom", parseOk := fun _ => false,
       extractFiles := fun _ => [] }
     { failureCount := 0, threshold := 3, «open» := false, openUntil := 0 }
     ({} : ChatRequest) [{ name := "t" }] (by decide)⟩

end Gateway

